import Mathlib

/-!
Verification of the physics-body subsystem of JSceneKit
(src/src/js/SceneKit/SCNPhysicsBody.js) against its specification.

The source file declares the public surface of `SCNPhysicsBody`: the
no-argument `init` that assigns every field its default, the `isResting`
getter, the three factory methods, the force/impulse/torque entry points,
`clearAllForces` and `resetTransform`.  The bodies of the factory and
apply methods, and the stepping driver (the PhysicsWorld that integrates
motion, resolves collisions and manages the rest state), are not present
in the source tree: those parts are modelled here from the specification,
and every such definition carries a doc comment beginning
`Modelled from the spec:`.  Scalars are modelled as exact rationals.
-/

/-- The SCNVector3 value used by SCNPhysicsBody: a 3-component vector. -/
structure SCNVector3 where
  x : ℚ
  y : ℚ
  z : ℚ
deriving DecidableEq, Repr

/-- The SCNVector4 value used by SCNPhysicsBody: a 4-component vector
(axis plus scalar, used for angular quantities). -/
structure SCNVector4 where
  x : ℚ
  y : ℚ
  z : ℚ
  w : ℚ
deriving DecidableEq, Repr

/-- Componentwise addition of 3-vectors. -/
def SCNVector3.add (a b : SCNVector3) : SCNVector3 :=
  ⟨a.x + b.x, a.y + b.y, a.z + b.z⟩

/-- Scaling of a 3-vector by a rational. -/
def SCNVector3.smul (a : SCNVector3) (k : ℚ) : SCNVector3 :=
  ⟨a.x * k, a.y * k, a.z * k⟩

/-- The zero 3-vector. -/
def SCNVector3.zero : SCNVector3 := ⟨0, 0, 0⟩

/-- Cross product of 3-vectors. -/
def SCNVector3.cross (a b : SCNVector3) : SCNVector3 :=
  ⟨a.y * b.z - a.z * b.y, a.z * b.x - a.x * b.z, a.x * b.y - a.y * b.x⟩

/-- Componentwise addition of 4-vectors. -/
def SCNVector4.add (a b : SCNVector4) : SCNVector4 :=
  ⟨a.x + b.x, a.y + b.y, a.z + b.z, a.w + b.w⟩

/-- Scaling of a 4-vector by a rational. -/
def SCNVector4.smul (a : SCNVector4) (k : ℚ) : SCNVector4 :=
  ⟨a.x * k, a.y * k, a.z * k, a.w * k⟩

/-- The zero 4-vector. -/
def SCNVector4.zero : SCNVector4 := ⟨0, 0, 0, 0⟩

/-- A 3-vector viewed as a 4-vector with zero last component. -/
def SCNVector3.toVec4 (a : SCNVector3) : SCNVector4 := ⟨a.x, a.y, a.z, 0⟩

/-- The three body types of SCNPhysicsBodyType: a constant that determines
how the physics body responds to forces and collisions. -/
inductive SCNPhysicsBodyType where
  | static
  | dynamic
  | kinematic
deriving DecidableEq, Repr

/-- Modelled from the spec: SCNPhysicsShape is an immutable collision
geometry descriptor (the shape class itself is not in the source tree).
`descriptor` identifies the geometry, `volume` is its solid volume, used
to derive the default mass of a Dynamic body. -/
structure SCNPhysicsShape where
  descriptor : Nat
  volume : ℚ
deriving DecidableEq, Repr

/-- The state of an SCNPhysicsBody.  The fields down to `_isResting` are
exactly the fields assigned by the no-argument `init` of the source
(nullable fields are `Option`).  The remaining fields are modelled from
the spec: the transient per-step accumulators (net force, net torque, and
whether any force or impulse was applied during the current step) and the
internal transform state (position, orientation) that the stepping driver
integrates and that `resetTransform` overwrites. -/
structure SCNPhysicsBody where
  physicsShape : Option SCNPhysicsShape
  type : Option SCNPhysicsBodyType
  velocityFactor : Option SCNVector3
  angularVelocityFactor : Option SCNVector3
  isAffectedByGravity : Bool
  mass : ℚ
  charge : ℚ
  friction : ℚ
  rollingFriction : ℚ
  restitution : ℚ
  damping : ℚ
  angularDamping : ℚ
  momentOfInertia : Option SCNVector3
  usesDefaultMomentOfInertia : Bool
  categoryBitMask : Nat
  contactTestBitMask : Nat
  collisionBitMask : Nat
  velocity : Option SCNVector3
  angularVelocity : Option SCNVector4
  allowsResting : Bool
  _isResting : Bool
  forceAccum : SCNVector3
  torqueAccum : SCNVector4
  forceAppliedThisStep : Bool
  position : SCNVector3
  orientation : SCNVector4
deriving DecidableEq, Repr

/-- The no-argument `init` of SCNPhysicsBody (source lines 23-177): every
field receives its default.  Scalar coefficients and bitmasks are 0,
booleans are false, nullable object-valued fields are null.  The modelled
accumulator and transform fields start at zero / cleared. -/
def SCNPhysicsBody.init : SCNPhysicsBody where
  physicsShape := none
  type := none
  velocityFactor := none
  angularVelocityFactor := none
  isAffectedByGravity := false
  mass := 0
  charge := 0
  friction := 0
  rollingFriction := 0
  restitution := 0
  damping := 0
  angularDamping := 0
  momentOfInertia := none
  usesDefaultMomentOfInertia := false
  categoryBitMask := 0
  contactTestBitMask := 0
  collisionBitMask := 0
  velocity := none
  angularVelocity := none
  allowsResting := false
  _isResting := false
  forceAccum := SCNVector3.zero
  torqueAccum := SCNVector4.zero
  forceAppliedThisStep := false
  position := SCNVector3.zero
  orientation := SCNVector4.zero

/-- Modelled from the spec: the general factory behind the three
type-specific factories (the source factories are declarations returning
null).  The body starts from the default state of `init`; its type and
shape are the given ones; the mass is scaled by the shape volume (unit
density) when the type is Dynamic and a shape is present, and stays 0
otherwise (Static and Kinematic bodies never accelerate). -/
def SCNPhysicsBody.body (t : SCNPhysicsBodyType) (shape : Option SCNPhysicsShape) :
    SCNPhysicsBody :=
  { SCNPhysicsBody.init with
    type := some t
    physicsShape := shape
    mass :=
      match t, shape with
      | SCNPhysicsBodyType.dynamic, some s => s.volume
      | _, _ => 0 }

/-- Modelled from the spec: the `static` factory, a body that is
unaffected by forces or collisions and cannot move. -/
def SCNPhysicsBody.static (shape : Option SCNPhysicsShape) : SCNPhysicsBody :=
  SCNPhysicsBody.body SCNPhysicsBodyType.static shape

/-- Modelled from the spec: the `dynamic` factory, a body that can be
affected by forces and collisions. -/
def SCNPhysicsBody.dynamic (shape : Option SCNPhysicsShape) : SCNPhysicsBody :=
  SCNPhysicsBody.body SCNPhysicsBodyType.dynamic shape

/-- Modelled from the spec: the `kinematic` factory, a body unaffected by
forces or collisions but able to cause collisions when moved. -/
def SCNPhysicsBody.kinematic (shape : Option SCNPhysicsShape) : SCNPhysicsBody :=
  SCNPhysicsBody.body SCNPhysicsBodyType.kinematic shape

/-- Modelled from the spec: the simulation reads a null `velocity` as the
zero vector. -/
def SCNPhysicsBody.velocityValue (b : SCNPhysicsBody) : SCNVector3 :=
  b.velocity.getD SCNVector3.zero

/-- Modelled from the spec: the simulation reads a null `angularVelocity`
as the zero vector. -/
def SCNPhysicsBody.angularVelocityValue (b : SCNPhysicsBody) : SCNVector4 :=
  b.angularVelocity.getD SCNVector4.zero

/-- Modelled from the spec: `applyForceAsImpulse(direction, impulse)` (the
source method body is an empty stub; its doc block and spec section 4.2
give the semantics).  On a Static or Kinematic body (or a body with no
type) the call is a no-op.  On a Dynamic body, if `impulse` is true the
direction is a change in momentum added immediately to the velocity as
direction / mass; if false the direction is a force accumulated into the
net-force buffer, applied at the end of the step.  Either way the body is
woken (rest state cleared) and the current step is marked as having
received a force. -/
def SCNPhysicsBody.applyForceAsImpulse (b : SCNPhysicsBody)
    (direction : SCNVector3) (impulse : Bool) : SCNPhysicsBody :=
  match b.type with
  | some SCNPhysicsBodyType.dynamic =>
    if impulse then
      { b with
        velocity := some (b.velocityValue.add (direction.smul (1 / b.mass)))
        _isResting := false
        forceAppliedThisStep := true }
    else
      { b with
        forceAccum := b.forceAccum.add direction
        _isResting := false
        forceAppliedThisStep := true }
  | _ => b

/-- Modelled from the spec: `applyForceAt(direction, position, impulse)`
(empty stub in the source).  As `applyForceAsImpulse` for the linear part;
in addition the off-center application point induces an angular
contribution cross(position - centerOfMass, direction) (the center of
mass is the local origin), added to the torque accumulator, or
immediately to the angular velocity if `impulse` (unit moment of inertia:
the spec does not fix the inertia application). -/
def SCNPhysicsBody.applyForceAtAsImpulse (b : SCNPhysicsBody)
    (direction position : SCNVector3) (impulse : Bool) : SCNPhysicsBody :=
  match b.type with
  | some SCNPhysicsBodyType.dynamic =>
    let angular := position.cross direction
    if impulse then
      { b with
        velocity := some (b.velocityValue.add (direction.smul (1 / b.mass)))
        angularVelocity := some (b.angularVelocityValue.add angular.toVec4)
        _isResting := false
        forceAppliedThisStep := true }
    else
      { b with
        forceAccum := b.forceAccum.add direction
        torqueAccum := b.torqueAccum.add angular.toVec4
        _isResting := false
        forceAppliedThisStep := true }
  | _ => b

/-- Modelled from the spec: `applyTorqueAsImpulse(torque, impulse)` (empty
stub in the source).  Pure rotational effect, no linear contribution:
immediate change of angular velocity if `impulse` (unit moment of
inertia), otherwise accumulated into the net-torque buffer.  No-op on
Static and Kinematic bodies. -/
def SCNPhysicsBody.applyTorqueAsImpulse (b : SCNPhysicsBody)
    (torque : SCNVector4) (impulse : Bool) : SCNPhysicsBody :=
  match b.type with
  | some SCNPhysicsBodyType.dynamic =>
    if impulse then
      { b with
        angularVelocity := some (b.angularVelocityValue.add torque)
        _isResting := false
        forceAppliedThisStep := true }
    else
      { b with
        torqueAccum := b.torqueAccum.add torque
        _isResting := false
        forceAppliedThisStep := true }
  | _ => b

/-- Modelled from the spec: `clearAllForces()` (empty stub in the source)
zeroes the pending non-impulse accumulators for the current step; already
applied impulses are not touched (in particular the velocity is not). -/
def SCNPhysicsBody.clearAllForces (b : SCNPhysicsBody) : SCNPhysicsBody :=
  { b with
    forceAccum := SCNVector3.zero
    torqueAccum := SCNVector4.zero }

/-- The `isResting` getter of the source: returns the backing
`_isResting` field. -/
def SCNPhysicsBody.isResting (b : SCNPhysicsBody) : Bool :=
  b._isResting

/-- Modelled from the spec: `resetTransform()` (empty stub in the source)
reads the current world transform of the owning node (passed here as the
node position and orientation, since the node hierarchy is an external
collaborator) and overwrites the internal position and orientation of the
body, discarding simulation-accumulated drift.  An external transform
change wakes a resting body. -/
def SCNPhysicsBody.resetTransform (b : SCNPhysicsBody)
    (nodePosition : SCNVector3) (nodeOrientation : SCNVector4) : SCNPhysicsBody :=
  { b with
    position := nodePosition
    orientation := nodeOrientation
    _isResting := false }

/-- Modelled from the spec: one invocation of the stepping driver on a
single body (the PhysicsWorld is not in the source tree).  A Dynamic body
that is not resting integrates: the net accumulated force contributes
velocity (netForce / mass) * dt, gravity contributes g * dt when the body
is gravity-affected, the accumulated torque contributes to the angular
velocity (unit inertia), and the position advances by the new velocity
times dt.  The body then enters the rest state when `allowsResting` is
set, no force or impulse was applied during the step, and both the linear
and the angular velocity are zero (the implementation-defined rest
threshold and debounce are instantiated as exact zero for one step); on
entering rest the velocities are pinned to zero.  A resting Dynamic body
is excluded from integration.  Static and Kinematic bodies never
integrate.  In every case the per-step accumulators are cleared at the
end of the step. -/
def SCNPhysicsBody.step (b : SCNPhysicsBody) (gravity : SCNVector3) (dt : ℚ) :
    SCNPhysicsBody :=
  match b.type with
  | some SCNPhysicsBodyType.dynamic =>
    if b._isResting then
      { b with
        forceAccum := SCNVector3.zero
        torqueAccum := SCNVector4.zero
        forceAppliedThisStep := false }
    else
      let v0 := b.velocityValue.add (b.forceAccum.smul (dt / b.mass))
      let v := if b.isAffectedByGravity then v0.add (gravity.smul dt) else v0
      let w := b.angularVelocityValue.add (b.torqueAccum.smul dt)
      let rest := b.allowsResting && !b.forceAppliedThisStep &&
        decide (v = SCNVector3.zero) && decide (w = SCNVector4.zero)
      { b with
        velocity := some (if rest then SCNVector3.zero else v)
        angularVelocity := some (if rest then SCNVector4.zero else w)
        position := b.position.add (v.smul dt)
        _isResting := rest
        forceAccum := SCNVector3.zero
        torqueAccum := SCNVector4.zero
        forceAppliedThisStep := false }
  | _ =>
    { b with
      forceAccum := SCNVector3.zero
      torqueAccum := SCNVector4.zero
      forceAppliedThisStep := false }

/-- Modelled from the spec: two bodies are eligible to generate a
physical collision response iff each category bitmask intersects the
collision bitmask of the other. -/
def collisionEligible (a b : SCNPhysicsBody) : Bool :=
  (a.categoryBitMask &&& b.collisionBitMask != 0) &&
  (b.categoryBitMask &&& a.collisionBitMask != 0)

/-- Modelled from the spec: the stepping driver generates a physical
collision response for a candidate pair exactly when the narrow-phase
geometric overlap test passes and the bitmask filter makes the pair
eligible (both tests must pass; their order is a performance choice). -/
def collisionResponseGenerated (a b : SCNPhysicsBody) (geometricOverlap : Bool) :
    Bool :=
  geometricOverlap && collisionEligible a b

/-- One public mutating operation on a body: the three apply entry
points, `clearAllForces`, `resetTransform`, or one simulation step. -/
inductive PhysOp where
  | force (direction : SCNVector3) (impulse : Bool)
  | forceAt (direction position : SCNVector3) (impulse : Bool)
  | torque (t : SCNVector4) (impulse : Bool)
  | clear
  | reset (nodePosition : SCNVector3) (nodeOrientation : SCNVector4)
  | stepOp (gravity : SCNVector3) (dt : ℚ)

/-- Interpretation of one operation on a body state. -/
def applyOp (b : SCNPhysicsBody) : PhysOp → SCNPhysicsBody
  | PhysOp.force d i => b.applyForceAsImpulse d i
  | PhysOp.forceAt d p i => b.applyForceAtAsImpulse d p i
  | PhysOp.torque t i => b.applyTorqueAsImpulse t i
  | PhysOp.clear => b.clearAllForces
  | PhysOp.reset p o => b.resetTransform p o
  | PhysOp.stepOp g dt => b.step g dt

/-- Running a sequence of operations on a body state. -/
def run (b : SCNPhysicsBody) (ops : List PhysOp) : SCNPhysicsBody :=
  ops.foldl applyOp b

/-- A sample operation sequence, used to instantiate the universally
quantified theorems below on a concrete input. -/
def sampleOps : List PhysOp :=
  [PhysOp.force ⟨1, 2, 3⟩ true,
   PhysOp.forceAt ⟨0, 1, 0⟩ ⟨1, 0, 0⟩ false,
   PhysOp.torque ⟨0, 0, 1, 0⟩ false,
   PhysOp.stepOp ⟨0, -10, 0⟩ (1 / 60),
   PhysOp.clear,
   PhysOp.reset ⟨5, 5, 5⟩ ⟨0, 0, 0, 1⟩,
   PhysOp.stepOp ⟨0, -10, 0⟩ (1 / 60)]

/-! ### Vector lemmas -/

@[simp]
theorem vec3_zero_add (v : SCNVector3) : SCNVector3.zero.add v = v := by
  cases v
  simp [SCNVector3.add, SCNVector3.zero]

@[simp]
theorem vec3_add_zero (v : SCNVector3) : v.add SCNVector3.zero = v := by
  cases v
  simp [SCNVector3.add, SCNVector3.zero]

@[simp]
theorem vec3_zero_smul (k : ℚ) : SCNVector3.zero.smul k = SCNVector3.zero := by
  simp [SCNVector3.smul, SCNVector3.zero]

@[simp]
theorem vec4_zero_add (v : SCNVector4) : SCNVector4.zero.add v = v := by
  cases v
  simp [SCNVector4.add, SCNVector4.zero]

@[simp]
theorem vec4_add_zero (v : SCNVector4) : v.add SCNVector4.zero = v := by
  cases v
  simp [SCNVector4.add, SCNVector4.zero]

@[simp]
theorem vec4_zero_smul (k : ℚ) : SCNVector4.zero.smul k = SCNVector4.zero := by
  simp [SCNVector4.smul, SCNVector4.zero]

/-! ### Preservation lemmas for operation sequences -/

theorem run_cons (b : SCNPhysicsBody) (op : PhysOp) (ops : List PhysOp) :
    run b (op :: ops) = run (applyOp b op) ops := rfl

theorem applyOp_static (b : SCNPhysicsBody) (op : PhysOp)
    (h : b.type = some SCNPhysicsBodyType.static) :
    (applyOp b op).type = some SCNPhysicsBodyType.static ∧
    (applyOp b op).velocity = b.velocity ∧
    (applyOp b op).angularVelocity = b.angularVelocity := by
  cases op <;>
    simp [applyOp, SCNPhysicsBody.applyForceAsImpulse,
      SCNPhysicsBody.applyForceAtAsImpulse, SCNPhysicsBody.applyTorqueAsImpulse,
      SCNPhysicsBody.clearAllForces, SCNPhysicsBody.resetTransform,
      SCNPhysicsBody.step, h]

theorem run_static (b : SCNPhysicsBody) (ops : List PhysOp)
    (h : b.type = some SCNPhysicsBodyType.static) :
    (run b ops).type = some SCNPhysicsBodyType.static ∧
    (run b ops).velocity = b.velocity ∧
    (run b ops).angularVelocity = b.angularVelocity := by
  induction ops generalizing b with
  | nil => exact ⟨h, rfl, rfl⟩
  | cons op ops ih =>
    have h1 := applyOp_static b op h
    have h2 := ih (applyOp b op) h1.1
    rw [run_cons]
    exact ⟨h2.1, h2.2.1.trans h1.2.1, h2.2.2.trans h1.2.2⟩

theorem applyOp_restingFalse (b : SCNPhysicsBody) (op : PhysOp)
    (h1 : b.allowsResting = false) (h2 : b._isResting = false) :
    (applyOp b op).allowsResting = false ∧ (applyOp b op)._isResting = false := by
  cases op <;>
    simp only [applyOp, SCNPhysicsBody.applyForceAsImpulse,
      SCNPhysicsBody.applyForceAtAsImpulse, SCNPhysicsBody.applyTorqueAsImpulse,
      SCNPhysicsBody.clearAllForces, SCNPhysicsBody.resetTransform,
      SCNPhysicsBody.step] <;>
    (repeat' split) <;>
    simp_all

theorem run_restingFalse (b : SCNPhysicsBody) (ops : List PhysOp)
    (h1 : b.allowsResting = false) (h2 : b._isResting = false) :
    (run b ops).allowsResting = false ∧ (run b ops)._isResting = false := by
  induction ops generalizing b with
  | nil => exact ⟨h1, h2⟩
  | cons op ops ih =>
    have h := applyOp_restingFalse b op h1 h2
    rw [run_cons]
    exact ih _ h.1 h.2

/-! ### Claim theorems -/

/-- Claim C1: applying an impulse vector I to a Dynamic body of mass
m > 0 at the center of mass changes the velocity of the body by exactly
I / m, immediately (the velocity field is updated by the call itself) and
independently of the step duration (no dt enters the computation). -/
theorem applyImpulse_deltaV (b : SCNPhysicsBody) (I : SCNVector3)
    (ht : b.type = some SCNPhysicsBodyType.dynamic) (hm : 0 < b.mass) :
    (b.applyForceAsImpulse I true).velocityValue =
      b.velocityValue.add (I.smul (1 / b.mass)) := by
  simp [SCNPhysicsBody.applyForceAsImpulse, SCNPhysicsBody.velocityValue, ht]

theorem applyImpulse_deltaV_concrete :
    (SCNPhysicsBody.dynamic (some ⟨1, 2⟩)).type = some SCNPhysicsBodyType.dynamic ∧
    (0 : ℚ) < (SCNPhysicsBody.dynamic (some ⟨1, 2⟩)).mass ∧
    ((SCNPhysicsBody.dynamic (some ⟨1, 2⟩)).applyForceAsImpulse ⟨4, 0, 2⟩ true).velocityValue =
      (SCNPhysicsBody.dynamic (some ⟨1, 2⟩)).velocityValue.add
        (SCNVector3.smul ⟨4, 0, 2⟩ (1 / (SCNPhysicsBody.dynamic (some ⟨1, 2⟩)).mass)) :=
  ⟨by decide, by decide, applyImpulse_deltaV _ _ (by decide) (by decide)⟩

/-- Claim C2: a Static body never has its velocity or angularVelocity
mutated by any sequence of apply calls and simulation steps; in
particular a Static factory body keeps both exactly zero. -/
theorem static_velocity_invariant (b : SCNPhysicsBody) (ops : List PhysOp)
    (shape : Option SCNPhysicsShape)
    (h : b.type = some SCNPhysicsBodyType.static) :
    (run b ops).velocity = b.velocity ∧
    (run b ops).angularVelocity = b.angularVelocity ∧
    (run (SCNPhysicsBody.static shape) ops).velocityValue = SCNVector3.zero ∧
    (run (SCNPhysicsBody.static shape) ops).angularVelocityValue = SCNVector4.zero := by
  have hs := run_static b ops h
  have hf := run_static (SCNPhysicsBody.static shape) ops rfl
  have hv : (run (SCNPhysicsBody.static shape) ops).velocity = none := hf.2.1
  have hw : (run (SCNPhysicsBody.static shape) ops).angularVelocity = none := hf.2.2
  exact ⟨hs.2.1, hs.2.2,
    by simp [SCNPhysicsBody.velocityValue, hv],
    by simp [SCNPhysicsBody.angularVelocityValue, hw]⟩

theorem static_velocity_invariant_concrete :
    (SCNPhysicsBody.static (some ⟨3, 5⟩)).type = some SCNPhysicsBodyType.static ∧
    ((run (SCNPhysicsBody.static (some ⟨3, 5⟩)) sampleOps).velocity =
        (SCNPhysicsBody.static (some ⟨3, 5⟩)).velocity ∧
      (run (SCNPhysicsBody.static (some ⟨3, 5⟩)) sampleOps).angularVelocity =
        (SCNPhysicsBody.static (some ⟨3, 5⟩)).angularVelocity ∧
      (run (SCNPhysicsBody.static (some ⟨3, 5⟩)) sampleOps).velocityValue = SCNVector3.zero ∧
      (run (SCNPhysicsBody.static (some ⟨3, 5⟩)) sampleOps).angularVelocityValue =
        SCNVector4.zero) :=
  ⟨by decide, static_velocity_invariant _ sampleOps (some ⟨3, 5⟩) (by decide)⟩

/-- Claim C3: the dynamic factory round-trips: the constructed body reads
back type Dynamic and exactly the shape that was passed in. -/
theorem dynamic_factory_roundTrip (s : SCNPhysicsShape) :
    (SCNPhysicsBody.dynamic (some s)).type = some SCNPhysicsBodyType.dynamic ∧
    (SCNPhysicsBody.dynamic (some s)).physicsShape = some s :=
  ⟨rfl, rfl⟩

/-- Claim C4: a physical collision response between two bodies is
generated exactly when the pair geometrically overlaps and each category
bitmask intersects the collision bitmask of the other; in particular a
pair failing the bitmask test never produces a response regardless of
geometric overlap. -/
theorem collision_filter_iff (a b : SCNPhysicsBody) (geometricOverlap : Bool) :
    collisionResponseGenerated a b geometricOverlap = true ↔
      (geometricOverlap = true ∧
        a.categoryBitMask &&& b.collisionBitMask ≠ 0 ∧
        b.categoryBitMask &&& a.collisionBitMask ≠ 0) := by
  simp [collisionResponseGenerated, collisionEligible, Bool.and_eq_true, bne_iff_ne,
    and_assoc]

/-- Claim C5: a continuous force F (impulse false) applied to a Dynamic
body of mass m > 0 and integrated over one step of duration dt changes
the velocity by F / m * dt, and splitting the force over two apply calls
within the same step yields the summed change (F1 + F2) / m * dt. -/
theorem continuous_force_integration (b : SCNPhysicsBody)
    (F1 F2 gravity : SCNVector3) (dt : ℚ)
    (ht : b.type = some SCNPhysicsBodyType.dynamic) (hm : 0 < b.mass)
    (hg : b.isAffectedByGravity = false) (ha : b.forceAccum = SCNVector3.zero) :
    ((b.applyForceAsImpulse F1 false).step gravity dt).velocityValue =
      b.velocityValue.add (F1.smul (dt / b.mass)) ∧
    (((b.applyForceAsImpulse F1 false).applyForceAsImpulse F2 false).step
        gravity dt).velocityValue =
      b.velocityValue.add ((F1.add F2).smul (dt / b.mass)) := by
  constructor <;>
    simp [SCNPhysicsBody.applyForceAsImpulse, SCNPhysicsBody.step,
      SCNPhysicsBody.velocityValue, ht, hg, ha]

theorem continuous_force_integration_concrete :
    (SCNPhysicsBody.dynamic (some ⟨1, 2⟩)).type = some SCNPhysicsBodyType.dynamic ∧
    (0 : ℚ) < (SCNPhysicsBody.dynamic (some ⟨1, 2⟩)).mass ∧
    (SCNPhysicsBody.dynamic (some ⟨1, 2⟩)).isAffectedByGravity = false ∧
    (SCNPhysicsBody.dynamic (some ⟨1, 2⟩)).forceAccum = SCNVector3.zero ∧
    (((SCNPhysicsBody.dynamic (some ⟨1, 2⟩)).applyForceAsImpulse ⟨6, 0, 0⟩ false).step
        ⟨0, -10, 0⟩ (1 / 2)).velocityValue =
      (SCNPhysicsBody.dynamic (some ⟨1, 2⟩)).velocityValue.add
        (SCNVector3.smul ⟨6, 0, 0⟩ ((1 / 2) / (SCNPhysicsBody.dynamic (some ⟨1, 2⟩)).mass)) ∧
    ((((SCNPhysicsBody.dynamic (some ⟨1, 2⟩)).applyForceAsImpulse ⟨6, 0, 0⟩
          false).applyForceAsImpulse ⟨0, 6, 0⟩ false).step ⟨0, -10, 0⟩ (1 / 2)).velocityValue =
      (SCNPhysicsBody.dynamic (some ⟨1, 2⟩)).velocityValue.add
        (SCNVector3.smul (SCNVector3.add ⟨6, 0, 0⟩ ⟨0, 6, 0⟩)
          ((1 / 2) / (SCNPhysicsBody.dynamic (some ⟨1, 2⟩)).mass)) :=
  ⟨by decide, by decide, by decide, by decide,
    continuous_force_integration _ _ _ _ _ (by decide) (by decide) (by decide) (by decide)⟩

/-- Claim C6: calling clearAllForces after one or more non-impulse apply
calls and before the step boundary leaves the velocity after the step
exactly as if those calls had never happened, while the velocity change
of an already-applied impulse is not reversed by clearAllForces. -/
theorem clearAllForces_cancels_pending (b : SCNPhysicsBody)
    (F1 F2 I gravity : SCNVector3) (dt : ℚ)
    (hg : b.isAffectedByGravity = false) :
    ((((b.applyForceAsImpulse F1 false).applyForceAsImpulse
          F2 false).clearAllForces).step gravity dt).velocityValue =
      ((b.clearAllForces).step gravity dt).velocityValue ∧
    ((b.applyForceAsImpulse I true).clearAllForces).velocity =
      (b.applyForceAsImpulse I true).velocity := by
  refine ⟨?_, rfl⟩
  cases hb : b.type with
  | none => simp [SCNPhysicsBody.applyForceAsImpulse, hb]
  | some t =>
    cases t with
    | static => simp [SCNPhysicsBody.applyForceAsImpulse, hb]
    | kinematic => simp [SCNPhysicsBody.applyForceAsImpulse, hb]
    | dynamic =>
      cases hr : b._isResting <;>
        simp [SCNPhysicsBody.applyForceAsImpulse, SCNPhysicsBody.clearAllForces,
          SCNPhysicsBody.step, SCNPhysicsBody.velocityValue,
          SCNPhysicsBody.angularVelocityValue, hb, hr, hg] <;>
        (try (split <;> simp_all))

/-- Claim C7: a body with allowsResting false never reports isResting
true, over any sequence of public operations and simulation steps; and a
step can turn isResting from false to true only when allowsResting is
set, no force or impulse was applied during the step, and the
post-integration linear and angular velocities are zero (the resulting
velocities then read exactly zero). -/
theorem allowsResting_false_never_resting (b c : SCNPhysicsBody)
    (ops : List PhysOp) (gravity : SCNVector3) (dt : ℚ)
    (h1 : b.allowsResting = false) (h2 : b._isResting = false)
    (hc : c._isResting = false) :
    (run b ops).isResting = false ∧
    ((c.step gravity dt).isResting = true →
      c.allowsResting = true ∧ c.forceAppliedThisStep = false ∧
      (c.step gravity dt).velocityValue = SCNVector3.zero ∧
      (c.step gravity dt).angularVelocityValue = SCNVector4.zero) := by
  refine ⟨(run_restingFalse b ops h1 h2).2, ?_⟩
  cases hb : c.type with
  | none => simp [SCNPhysicsBody.step, SCNPhysicsBody.isResting, hb, hc]
  | some t =>
    cases t with
    | static => simp [SCNPhysicsBody.step, SCNPhysicsBody.isResting, hb, hc]
    | kinematic => simp [SCNPhysicsBody.step, SCNPhysicsBody.isResting, hb, hc]
    | dynamic =>
      simp only [SCNPhysicsBody.step, SCNPhysicsBody.isResting, hb, hc]
      intro h
      simp only [Bool.if_false_left, Bool.and_eq_true, Bool.not_eq_true',
        decide_eq_true_eq] at h ⊢
      simp_all [SCNPhysicsBody.velocityValue, SCNPhysicsBody.angularVelocityValue]

theorem allowsResting_false_never_resting_concrete :
    (SCNPhysicsBody.kinematic none).allowsResting = false ∧
    (SCNPhysicsBody.kinematic none)._isResting = false ∧
    (SCNPhysicsBody.dynamic (some ⟨1, 2⟩))._isResting = false ∧
    ((run (SCNPhysicsBody.kinematic none) sampleOps).isResting = false ∧
      (((SCNPhysicsBody.dynamic (some ⟨1, 2⟩)).step ⟨0, -10, 0⟩ (1 / 60)).isResting = true →
        (SCNPhysicsBody.dynamic (some ⟨1, 2⟩)).allowsResting = true ∧
        (SCNPhysicsBody.dynamic (some ⟨1, 2⟩)).forceAppliedThisStep = false ∧
        ((SCNPhysicsBody.dynamic (some ⟨1, 2⟩)).step ⟨0, -10, 0⟩ (1 / 60)).velocityValue =
          SCNVector3.zero ∧
        ((SCNPhysicsBody.dynamic (some ⟨1, 2⟩)).step ⟨0, -10, 0⟩
            (1 / 60)).angularVelocityValue = SCNVector4.zero)) :=
  ⟨by decide, by decide, by decide,
    allowsResting_false_never_resting _ _ sampleOps _ _ (by decide) (by decide) (by decide)⟩

/-- Claim C8: resetTransform overwrites the internal position and
orientation of the body with the current transform of the owning node,
regardless of any simulation-accumulated drift in the pre-reset position,
and a subsequent step integrates from the reset position: the post-step
position is the node position advanced by the current velocity times dt. -/
theorem resetTransform_overwrites_and_reseeds (b : SCNPhysicsBody)
    (nodePosition : SCNVector3) (nodeOrientation : SCNVector4)
    (gravity : SCNVector3) (dt : ℚ)
    (ht : b.type = some SCNPhysicsBodyType.dynamic)
    (hg : b.isAffectedByGravity = false) (ha : b.forceAccum = SCNVector3.zero) :
    (b.resetTransform nodePosition nodeOrientation).position = nodePosition ∧
    (b.resetTransform nodePosition nodeOrientation).orientation = nodeOrientation ∧
    ((b.resetTransform nodePosition nodeOrientation).step gravity dt).position =
      nodePosition.add (b.velocityValue.smul dt) := by
  refine ⟨rfl, rfl, ?_⟩
  simp [SCNPhysicsBody.resetTransform, SCNPhysicsBody.step,
    SCNPhysicsBody.velocityValue, ht, hg, ha]

theorem resetTransform_overwrites_and_reseeds_concrete :
    ((SCNPhysicsBody.dynamic (some ⟨1, 2⟩)).applyForceAsImpulse ⟨2, 0, 0⟩ true).type =
      some SCNPhysicsBodyType.dynamic ∧
    ((SCNPhysicsBody.dynamic (some ⟨1, 2⟩)).applyForceAsImpulse ⟨2, 0, 0⟩
        true).isAffectedByGravity = false ∧
    ((SCNPhysicsBody.dynamic (some ⟨1, 2⟩)).applyForceAsImpulse ⟨2, 0, 0⟩ true).forceAccum =
      SCNVector3.zero ∧
    ((((SCNPhysicsBody.dynamic (some ⟨1, 2⟩)).applyForceAsImpulse ⟨2, 0, 0⟩
          true).resetTransform ⟨7, 8, 9⟩ ⟨0, 0, 0, 1⟩).position = ⟨7, 8, 9⟩ ∧
      (((SCNPhysicsBody.dynamic (some ⟨1, 2⟩)).applyForceAsImpulse ⟨2, 0, 0⟩
          true).resetTransform ⟨7, 8, 9⟩ ⟨0, 0, 0, 1⟩).orientation = ⟨0, 0, 0, 1⟩ ∧
      ((((SCNPhysicsBody.dynamic (some ⟨1, 2⟩)).applyForceAsImpulse ⟨2, 0, 0⟩
            true).resetTransform ⟨7, 8, 9⟩ ⟨0, 0, 0, 1⟩).step ⟨0, -10, 0⟩ (1 / 2)).position =
        SCNVector3.add ⟨7, 8, 9⟩
          (SCNVector3.smul (((SCNPhysicsBody.dynamic (some ⟨1, 2⟩)).applyForceAsImpulse
            ⟨2, 0, 0⟩ true).velocityValue) (1 / 2))) :=
  ⟨by decide, by decide, by decide,
    resetTransform_overwrites_and_reseeds _ _ _ _ _ (by decide) (by decide) (by decide)⟩

/-- Claim C9: no operation of the public interface ever sets the backing
rest flag: starting from the no-argument init or from any factory body,
the isResting getter returns false after every sequence of apply calls,
clearAllForces, resetTransform and simulation steps. -/
theorem isResting_never_true_from_public_interface :
    (∀ ops : List PhysOp, (run SCNPhysicsBody.init ops).isResting = false) ∧
    (∀ (shape : Option SCNPhysicsShape) (ops : List PhysOp),
      (run (SCNPhysicsBody.static shape) ops).isResting = false) ∧
    (∀ (shape : Option SCNPhysicsShape) (ops : List PhysOp),
      (run (SCNPhysicsBody.dynamic shape) ops).isResting = false) ∧
    (∀ (shape : Option SCNPhysicsShape) (ops : List PhysOp),
      (run (SCNPhysicsBody.kinematic shape) ops).isResting = false) :=
  ⟨fun ops => (run_restingFalse _ ops rfl rfl).2,
    fun _ ops => (run_restingFalse _ ops rfl rfl).2,
    fun _ ops => (run_restingFalse _ ops rfl rfl).2,
    fun _ ops => (run_restingFalse _ ops rfl rfl).2⟩

/-- Claim C10: immediately after the no-argument init, every scalar
coefficient and every bitmask is 0 (so a default body is filtered out of
every collision pairing), the three booleans are false, and the
object-valued fields physicsShape, type, velocity, angularVelocity,
velocityFactor, angularVelocityFactor and momentOfInertia are null. -/
theorem init_defaults :
    SCNPhysicsBody.init.mass = 0 ∧
    SCNPhysicsBody.init.charge = 0 ∧
    SCNPhysicsBody.init.friction = 0 ∧
    SCNPhysicsBody.init.rollingFriction = 0 ∧
    SCNPhysicsBody.init.restitution = 0 ∧
    SCNPhysicsBody.init.damping = 0 ∧
    SCNPhysicsBody.init.angularDamping = 0 ∧
    SCNPhysicsBody.init.categoryBitMask = 0 ∧
    SCNPhysicsBody.init.collisionBitMask = 0 ∧
    SCNPhysicsBody.init.contactTestBitMask = 0 ∧
    (∀ other : SCNPhysicsBody,
      collisionEligible SCNPhysicsBody.init other = false ∧
      collisionEligible other SCNPhysicsBody.init = false) ∧
    SCNPhysicsBody.init.isAffectedByGravity = false ∧
    SCNPhysicsBody.init.usesDefaultMomentOfInertia = false ∧
    SCNPhysicsBody.init.allowsResting = false ∧
    SCNPhysicsBody.init.physicsShape = none ∧
    SCNPhysicsBody.init.type = none ∧
    SCNPhysicsBody.init.velocity = none ∧
    SCNPhysicsBody.init.angularVelocity = none ∧
    SCNPhysicsBody.init.velocityFactor = none ∧
    SCNPhysicsBody.init.angularVelocityFactor = none ∧
    SCNPhysicsBody.init.momentOfInertia = none := by
  refine ⟨rfl, rfl, rfl, rfl, rfl, rfl, rfl, rfl, rfl, rfl, ?_, rfl, rfl, rfl, rfl,
    rfl, rfl, rfl, rfl, rfl, rfl⟩
  intro other
  constructor <;> simp [collisionEligible, SCNPhysicsBody.init]

theorem clearAllForces_cancels_pending_concrete :
    (SCNPhysicsBody.dynamic (some ⟨1, 2⟩)).isAffectedByGravity = false ∧
    (((((SCNPhysicsBody.dynamic (some ⟨1, 2⟩)).applyForceAsImpulse ⟨6, 0, 0⟩
            false).applyForceAsImpulse ⟨0, 6, 0⟩ false).clearAllForces).step
          ⟨0, -10, 0⟩ (1 / 2)).velocityValue =
        (((SCNPhysicsBody.dynamic (some ⟨1, 2⟩)).clearAllForces).step
          ⟨0, -10, 0⟩ (1 / 2)).velocityValue ∧
      (((SCNPhysicsBody.dynamic (some ⟨1, 2⟩)).applyForceAsImpulse ⟨4, 0, 0⟩
          true).clearAllForces).velocity =
        ((SCNPhysicsBody.dynamic (some ⟨1, 2⟩)).applyForceAsImpulse ⟨4, 0, 0⟩ true).velocity :=
  ⟨by decide,
    clearAllForces_cancels_pending _ ⟨6, 0, 0⟩ ⟨0, 6, 0⟩ ⟨4, 0, 0⟩ ⟨0, -10, 0⟩ (1 / 2)
      (by decide)⟩
